import Mathlib

/-! Verification of the magic-link access-control core of the candidates-portal
repository: a shallow embedding of the PL/pgSQL functions
`validate_magic_link_access` and `unlock_conversation` from migration
`006_secure_magic_links.sql`, together with the `magic_link_access_log` table
and its foreign-key constraint `fk_magic_link_access_log_token`.

Modelling conventions: UUIDs are `Nat`; `TIMESTAMPTZ` values are seconds as
`Int` and `NOW()` is an explicit `now` parameter; the two tables are lists of
rows; the JSON result is the `conversation` object on success or the `error`
code on failure (the human-readable `message` string carries no information
beyond the code and is not modelled). -/

namespace CandidatesPortal

/-- A row of `chat_conversations`, restricted to the columns the magic-link
functions read or write (base columns from migration 001 plus the security
columns added by migration 006). -/
structure Conversation where
  id : Nat
  candidate_id : Nat
  status : String
  talent_token : Nat
  token_expires_at : Int
  opportunity_type : String
  urgency : String
  engagement_type : String
  access_count : Nat
  last_accessed_at : Option Int
  last_accessed_ip : Option String
  user_agent : Option String
  is_locked : Bool
  lock_reason : Option String
  created_at : Int
  deriving DecidableEq

/-- A row of `magic_link_access_log`. `fingerprint_data` is opaque JSONB,
modelled as an optional string. -/
structure LogEntry where
  talent_token : Nat
  ip_address : String
  user_agent : Option String
  access_result : String
  fingerprint_data : Option String
  created_at : Int
  deriving DecidableEq

/-- The store: the `chat_conversations` table and the append-only
`magic_link_access_log` table. -/
structure DBState where
  conversations : List Conversation
  log : List LogEntry
  deriving DecidableEq

/-- `SELECT * INTO conversation_record FROM chat_conversations WHERE
talent_token = p_talent_token` (`talent_token` is unique, being the target of
a foreign key; `find?` returns the matching row when one exists). -/
def findConv (s : DBState) (tok : Nat) : Option Conversation :=
  s.conversations.find? (fun c => c.talent_token == tok)

/-- `max_daily_attempts INTEGER := 10` from the DECLARE block. -/
def max_daily_attempts : Nat := 10

/-- `max_hourly_attempts INTEGER := 5` from the DECLARE block. -/
def max_hourly_attempts : Nat := 5

/-- `COUNT(*) FROM magic_link_access_log WHERE ip_address = p_ip_address AND
created_at > NOW() - 1 hour`. -/
def hourlyCount (s : DBState) (ip : String) (now : Int) : Nat :=
  (s.log.filter (fun e => e.ip_address == ip && decide (now - 3600 < e.created_at))).length

/-- `COUNT(*) FROM magic_link_access_log WHERE ip_address = p_ip_address AND
created_at > NOW() - 1 day`. -/
def dailyCount (s : DBState) (ip : String) (now : Int) : Nat :=
  (s.log.filter (fun e => e.ip_address == ip && decide (now - 86400 < e.created_at))).length

/-- `COUNT(*) FROM magic_link_access_log WHERE talent_token = p_talent_token
AND ip_address = p_ip_address AND created_at > NOW() - 5 minutes`. -/
def rapidCount (s : DBState) (tok : Nat) (ip : String) (now : Int) : Nat :=
  (s.log.filter (fun e =>
    e.talent_token == tok && e.ip_address == ip && decide (now - 300 < e.created_at))).length

/-- `patAt p s` : the character list `p` matches at the front of `s`. -/
def patAt : List Char → List Char → Bool
  | [], _ => true
  | _ :: _, [] => false
  | p :: ps, c :: cs => p == c && patAt ps cs

/-- `patIn p s` : `p` occurs contiguously somewhere in `s`. -/
def patIn (p : List Char) : List Char → Bool
  | [] => patAt p []
  | c :: cs => patAt p (c :: cs) || patIn p cs

/-- The alternatives of the POSIX pattern
`(bot|crawler|spider|scraper|curl|wget|python|go-http|okhttp)` at line 150 of
the migration; each alternative is a literal, so the unanchored match holds
iff some alternative occurs as a substring. -/
def botSignatures : List String :=
  ["bot", "crawler", "spider", "scraper", "curl", "wget", "python", "go-http", "okhttp"]

/-- `p_user_agent ~* '(bot|crawler|spider|scraper|curl|wget|python|go-http|okhttp)'`:
case-insensitive unanchored match, i.e. some alternative is a substring of the
lower-cased user agent. -/
def uaMatchesBot (ua : String) : Bool :=
  botSignatures.any (fun p => patIn p.data (ua.data.map Char.toLower))

/-- `IF p_user_agent IS NOT NULL THEN IF p_user_agent ~* ...` : a NULL user
agent is never suspicious. -/
def uaSuspicious : Option String → Bool
  | none => false
  | some ua => uaMatchesBot ua

/-- The `conversation` object built by `json_build_object` on the success
branch. -/
structure ConvView where
  id : Nat
  candidate_id : Nat
  status : String
  opportunity_type : String
  urgency : String
  engagement_type : String
  access_count : Nat
  created_at : Int
  deriving DecidableEq

/-- Result JSON of a validation call: the `conversation` object when
`success` is true, or the `error` code when it is false. -/
inductive VOut where
  | ok (conversation : ConvView)
  | err (code : String)
  deriving DecidableEq

/-- Per-row effect of the suspicious-branch UPDATE on the row matched by
`WHERE talent_token = tok`. -/
def lockUpd (tok : Nat) (c : Conversation) : Conversation :=
  if c.talent_token == tok then
    { c with is_locked := true, lock_reason := some "Suspicious access pattern detected" }
  else c

/-- `UPDATE chat_conversations SET is_locked = TRUE, lock_reason = ... WHERE
talent_token = tok`. -/
def lockByToken (s : DBState) (tok : Nat) : DBState :=
  { s with conversations := s.conversations.map (lockUpd tok) }

/-- Per-row effect of the success-branch UPDATE on the row matched by
`WHERE talent_token = tok`. -/
def touchUpd (tok : Nat) (now : Int) (ip : String) (ua : Option String)
    (c : Conversation) : Conversation :=
  if c.talent_token == tok then
    { c with access_count := c.access_count + 1, last_accessed_at := some now,
             last_accessed_ip := some ip, user_agent := ua }
  else c

/-- `UPDATE chat_conversations SET access_count = access_count + 1,
last_accessed_at = NOW(), last_accessed_ip = p_ip_address, user_agent =
p_user_agent WHERE talent_token = tok`. -/
def touchByToken (s : DBState) (tok : Nat) (now : Int) (ip : String)
    (ua : Option String) : DBState :=
  { s with conversations := s.conversations.map (touchUpd tok now ip ua) }

/-- `INSERT INTO magic_link_access_log (...) VALUES (...)`, taken as
succeeding (the schema constraint is treated separately below). -/
def appendLog (s : DBState) (e : LogEntry) : DBState :=
  { s with log := s.log ++ [e] }

/-- The body of the PL/pgSQL function `validate_magic_link_access`
(migration 006, lines 39 to 199), with every INSERT taken as succeeding. The
checks appear in source order: existence, lock, expiry, hourly rate limit,
daily rate limit, then the two suspicion heuristics (rapid repeats on the
`(token, ip)` pair and the user-agent pattern), and finally the success
branch, which updates the access bookkeeping and reports
`conversation_record.access_count + 1` in the returned view. -/
def validate_magic_link_access (s : DBState) (now : Int) (tok : Nat)
    (ip : String) (ua : Option String) (fp : Option String) : VOut × DBState :=
  match findConv s tok with
  | none =>
      (VOut.err "invalid_token", appendLog s ⟨tok, ip, ua, "invalid", fp, now⟩)
  | some conv =>
      if conv.is_locked then
        (VOut.err "conversation_locked", appendLog s ⟨tok, ip, ua, "blocked", fp, now⟩)
      else if conv.token_expires_at ≤ now then
        (VOut.err "token_expired", appendLog s ⟨tok, ip, ua, "expired", fp, now⟩)
      else if max_hourly_attempts ≤ hourlyCount s ip now then
        (VOut.err "rate_limited", appendLog s ⟨tok, ip, ua, "rate_limited", fp, now⟩)
      else if max_daily_attempts ≤ dailyCount s ip now then
        (VOut.err "daily_limit_exceeded", appendLog s ⟨tok, ip, ua, "rate_limited", fp, now⟩)
      else if 3 ≤ rapidCount s tok ip now ∨ uaSuspicious ua then
        (VOut.err "suspicious_activity",
          appendLog (lockByToken s tok) ⟨tok, ip, ua, "blocked", fp, now⟩)
      else
        (VOut.ok ⟨conv.id, conv.candidate_id, conv.status, conv.opportunity_type,
                  conv.urgency, conv.engagement_type, conv.access_count + 1, conv.created_at⟩,
          appendLog (touchByToken s tok now ip ua) ⟨tok, ip, ua, "success", fp, now⟩)

/-- The constraint `fk_magic_link_access_log_token`: a row may be inserted
into `magic_link_access_log` with a given `talent_token` only when that token
references an existing row of `chat_conversations(talent_token)`. -/
def fkLogTokenOk (s : DBState) (tok : Nat) : Bool :=
  (findConv s tok).isSome

/-- `validate_magic_link_access` as executed against the schema of migration
006. Every branch of the body performs exactly one INSERT into
`magic_link_access_log`, always with `talent_token = p_talent_token`, and no
branch changes the `talent_token` of any conversation; so
`fk_magic_link_access_log_token` admits that INSERT iff the token is present
in `chat_conversations` at entry. When it is not (exactly the `NOT FOUND`
branch), the INSERT raises a foreign-key violation which is uncaught, so the
call aborts and the transaction rolls back: no JSON is returned and no log
row is kept, modelled as `none`. -/
def validate_magic_link_access_checked (s : DBState) (now : Int) (tok : Nat)
    (ip : String) (ua : Option String) (fp : Option String) :
    Option (VOut × DBState) :=
  if fkLogTokenOk s tok then
    some (validate_magic_link_access s now tok ip ua fp)
  else
    none

/-- Per-row effect of the unlock UPDATE on the row matched by
`WHERE id = p_conversation_id`. -/
def unlockUpd (cid : Nat) (c : Conversation) : Conversation :=
  if c.id == cid then { c with is_locked := false, lock_reason := none } else c

/-- The PL/pgSQL function `unlock_conversation` (migration 006, lines 202 to
218): `UPDATE chat_conversations SET is_locked = FALSE, lock_reason = NULL
WHERE id = p_conversation_id; RETURN FOUND`. `FOUND` is true iff the UPDATE
matched a row, whether or not any value changed; `p_admin_reason` is accepted
and ignored, as in the source. -/
def unlock_conversation (s : DBState) (p_conversation_id : Nat)
    (_p_admin_reason : String) : Bool × DBState :=
  (s.conversations.any (fun c => c.id == p_conversation_id),
   { s with conversations := s.conversations.map (unlockUpd p_conversation_id) })

/-- The conversation row as mutated by the suspicious-branch UPDATE. -/
def lockedRow (conv : Conversation) : Conversation :=
  { conv with is_locked := true, lock_reason := some "Suspicious access pattern detected" }

/-- The conversation row as mutated by the success-branch UPDATE. -/
def touchedRow (conv : Conversation) (now : Int) (ip : String)
    (ua : Option String) : Conversation :=
  { conv with
    access_count := conv.access_count + 1
    last_accessed_at := some now
    last_accessed_ip := some ip
    user_agent := ua }

/-! Concrete fixtures used by counterexamples and witnesses. -/

/-- An active, unlocked conversation whose token `7` expires at `604800`
(seven days after epoch `0`). -/
def convT7 : Conversation :=
  { id := 1, candidate_id := 2, status := "active", talent_token := 7,
    token_expires_at := 604800, opportunity_type := "direct_hire",
    urgency := "flexible", engagement_type := "full_time", access_count := 0,
    last_accessed_at := none, last_accessed_ip := none, user_agent := none,
    is_locked := false, lock_reason := none, created_at := 0 }

/-- A second active conversation with token `8`. -/
def convT8 : Conversation :=
  { convT7 with id := 2, talent_token := 8 }

/-- A conversation whose `status` is `closed` (not `active`) but whose token
`7` is unexpired and which is not locked. -/
def convClosed : Conversation :=
  { convT7 with status := "closed" }

/-- A locked conversation with token `9` and an unexpired token. -/
def convLocked9 : Conversation :=
  { convT7 with
    id := 3
    talent_token := 9
    is_locked := true
    lock_reason := some "Suspicious access pattern detected" }

/-- A locked conversation with token `9` whose token has also expired. -/
def convLockedExpired : Conversation :=
  { convLocked9 with token_expires_at := -100 }

/-- A conversation with token `5` that expired at time `10`. -/
def convExpired : Conversation :=
  { convT7 with id := 4, talent_token := 5, token_expires_at := 10 }

/-- A successful ledger row for fixture states. -/
def mkEntry (tok : Nat) (ip : String) (t : Int) : LogEntry :=
  ⟨tok, ip, none, "success", none, t⟩

/-- State for the C3 witness: a locked conversation whose token is also
expired, with six recent ledger rows from the requesting IP, so that the lock
answer is shown to precede both the expiry and the rate checks. -/
def sLockedBusy : DBState :=
  ⟨[convLockedExpired],
   [mkEntry 9 "9.9.9.9" 440, mkEntry 9 "9.9.9.9" 450, mkEntry 9 "9.9.9.9" 460,
    mkEntry 9 "9.9.9.9" 470, mkEntry 9 "9.9.9.9" 480, mkEntry 9 "9.9.9.9" 490]⟩

/-- State for the C4 counterexample: a locked conversation and five ledger
rows from IP `4.4.4.4` inside the trailing hour of `now = 1000`. -/
def sRateLocked : DBState :=
  ⟨[convLocked9],
   [mkEntry 9 "4.4.4.4" 600, mkEntry 9 "4.4.4.4" 700, mkEntry 9 "4.4.4.4" 800,
    mkEntry 9 "4.4.4.4" 900, mkEntry 9 "4.4.4.4" 950]⟩

/-- State for the C4 witness: a valid target conversation and five ledger
rows from IP `4.4.4.4` inside the trailing hour of `now = 600`, targeting a
mix of tokens `7` and `8`. -/
def sRateMixed : DBState :=
  ⟨[convT7, convT8],
   [mkEntry 7 "4.4.4.4" 100, mkEntry 8 "4.4.4.4" 200, mkEntry 7 "4.4.4.4" 300,
    mkEntry 8 "4.4.4.4" 400, mkEntry 8 "4.4.4.4" 500]⟩

/-- First attempt of the C5 scenario, at time `0` on a fresh store. -/
def sAfterOne : DBState :=
  (validate_magic_link_access ⟨[convT7], []⟩ 0 7 "1.2.3.4" (some "Mozilla/5.0") none).2

/-- Second attempt of the C5 scenario, at time `60`. -/
def sAfterTwo : DBState :=
  (validate_magic_link_access sAfterOne 60 7 "1.2.3.4" (some "Mozilla/5.0") none).2

/-- State for the C5 witness: three ledger rows for the pair
`(token 7, 1.2.3.4)` inside the trailing five minutes of `now = 180`. -/
def sRapidThree : DBState :=
  ⟨[convT7], [mkEntry 7 "1.2.3.4" 0, mkEntry 7 "1.2.3.4" 60, mkEntry 7 "1.2.3.4" 120]⟩

/-- A fresh store holding only `convT7`, with an empty ledger. -/
def sFresh : DBState := ⟨[convT7], []⟩

/-- State for the C9 witness: an expired conversation on a fresh ledger. -/
def sExpired : DBState := ⟨[convExpired], []⟩

/-! Helper lemmas shared by the claim theorems. -/

/-- `find?` on the token key commutes with a `map` whose function preserves
`talent_token`. -/
lemma find_map_token (f : Conversation → Conversation)
    (hf : ∀ c, (f c).talent_token = c.talent_token)
    (l : List Conversation) (tok : Nat) (conv : Conversation)
    (h : l.find? (fun c => c.talent_token == tok) = some conv) :
    (l.map f).find? (fun c => c.talent_token == tok) = some (f conv) := by
  induction l with
  | nil => simp at h
  | cons a t ih =>
    rw [List.map_cons]
    by_cases hp : (a.talent_token == tok) = true
    · rw [@List.find?_cons_of_pos _ (fun c => c.talent_token == tok) a t hp] at h
      obtain rfl : a = conv := Option.some.inj h
      exact @List.find?_cons_of_pos _ (fun c => c.talent_token == tok) (f a)
        (List.map f t) (by simpa [hf] using hp)
    · rw [@List.find?_cons_of_neg _ (fun c => c.talent_token == tok) a t hp] at h
      rw [@List.find?_cons_of_neg _ (fun c => c.talent_token == tok) (f a)
        (List.map f t) (by simpa [hf] using hp)]
      exact ih h

/-- Looking up the token after the suspicious-branch UPDATE returns the
locked row. -/
lemma findConv_lockByToken {s : DBState} {tok : Nat} {conv : Conversation}
    (h : findConv s tok = some conv) :
    findConv (lockByToken s tok) tok = some (lockedRow conv) := by
  unfold findConv at h
  have hp := List.find?_some h
  have hmap := find_map_token (lockUpd tok)
    (fun c => by unfold lockUpd; split <;> rfl) s.conversations tok conv h
  unfold findConv lockByToken
  rw [hmap]
  unfold lockUpd lockedRow
  rw [if_pos hp]

/-- Looking up the token after the success-branch UPDATE returns the row with
the refreshed bookkeeping fields. -/
lemma findConv_touchByToken {s : DBState} {tok : Nat} {conv : Conversation}
    (now : Int) (ip : String) (ua : Option String)
    (h : findConv s tok = some conv) :
    findConv (touchByToken s tok now ip ua) tok =
      some (touchedRow conv now ip ua) := by
  unfold findConv at h
  have hp := List.find?_some h
  have hmap := find_map_token (touchUpd tok now ip ua)
    (fun c => by unfold touchUpd; split <;> rfl) s.conversations tok conv h
  unfold findConv touchByToken
  rw [hmap]
  unfold touchUpd touchedRow
  rw [if_pos hp]

/-- A ledger with no rows from `ip` yields an hourly count of zero. -/
lemma hourlyCount_zero {s : DBState} {ip : String} (now : Int)
    (h : ∀ e ∈ s.log, e.ip_address ≠ ip) : hourlyCount s ip now = 0 := by
  unfold hourlyCount
  rw [List.length_eq_zero, List.filter_eq_nil_iff]
  intro e he
  simp only [Bool.and_eq_true, beq_iff_eq, decide_eq_true_eq]
  intro hconj
  exact h e he hconj.1

/-- A ledger with no rows from `ip` yields a daily count of zero. -/
lemma dailyCount_zero {s : DBState} {ip : String} (now : Int)
    (h : ∀ e ∈ s.log, e.ip_address ≠ ip) : dailyCount s ip now = 0 := by
  unfold dailyCount
  rw [List.length_eq_zero, List.filter_eq_nil_iff]
  intro e he
  simp only [Bool.and_eq_true, beq_iff_eq, decide_eq_true_eq]
  intro hconj
  exact h e he hconj.1

/-- A ledger with no rows from `ip` yields a rapid-repeat count of zero. -/
lemma rapidCount_zero {s : DBState} {ip : String} (tok : Nat) (now : Int)
    (h : ∀ e ∈ s.log, e.ip_address ≠ ip) : rapidCount s tok ip now = 0 := by
  unfold rapidCount
  rw [List.length_eq_zero, List.filter_eq_nil_iff]
  intro e he
  simp only [Bool.and_eq_true, beq_iff_eq, decide_eq_true_eq]
  intro hconj
  exact h e he hconj.1.2

/-! Claim theorems. -/

/-- Claim C1 (code bug). The claim says that for a token with no matching
conversation the call returns `success = false` with error `invalid_token`
and appends exactly one `invalid` ledger entry. The function body would do
exactly that, but the schema makes the branch unreachable: the `invalid` row
references a `talent_token` absent from `chat_conversations`, so the INSERT
violates `fk_magic_link_access_log_token`, the uncaught error aborts the
call, and the transaction rolls back — no JSON result and no ledger row.
The theorem shows, at a concrete unknown token, the executed call aborting
(`none`), the constraint rejecting the row, and the body alone behaving as
the claim says. -/
theorem c1_invalid_token_fk_violation_aborts :
    validate_magic_link_access_checked ⟨[], []⟩ 0 99 "1.2.3.4" none none = none
    ∧ fkLogTokenOk ⟨[], []⟩ 99 = false
    ∧ (validate_magic_link_access ⟨[], []⟩ 0 99 "1.2.3.4" none none).1
        = VOut.err "invalid_token"
    ∧ ((validate_magic_link_access ⟨[], []⟩ 0 99 "1.2.3.4" none none).2).log
        = [⟨99, "1.2.3.4", none, "invalid", none, 0⟩] := by
  decide

/-- Claim C2 (code bug). The claim says a conversation with
`status ≠ active` never validates successfully. The function never reads
`status`: at a concrete conversation with `status = "closed"`, an unexpired
token, no lock and a benign browser user agent, the executed call returns
`success = true` and the returned view itself carries `status = "closed"`. -/
theorem c2_closed_conversation_validates_successfully :
    convClosed.status = "closed"
    ∧ (validate_magic_link_access_checked ⟨[convClosed], []⟩ 0 7 "1.2.3.4"
        (some "Mozilla/5.0") none).map Prod.fst
        = some (VOut.ok ⟨1, 2, "closed", "direct_hire", "flexible",
                         "full_time", 1, 0⟩) := by
  decide

/-- Claim C3 (confirmed). For every conversation with `is_locked = true`,
validation with its token returns `success = false` with error
`conversation_locked` and appends one `blocked` ledger entry, with no
hypothesis on token expiry or on the rate state of the requesting IP: the
lock check is decided before the expiry and rate checks. -/
theorem c3_locked_returns_conversation_locked (s : DBState) (now : Int)
    (tok : Nat) (ip : String) (ua fp : Option String) (conv : Conversation)
    (hfind : findConv s tok = some conv) (hlock : conv.is_locked = true) :
    validate_magic_link_access s now tok ip ua fp =
      (VOut.err "conversation_locked",
       appendLog s ⟨tok, ip, ua, "blocked", fp, now⟩) := by
  unfold validate_magic_link_access
  rw [hfind]
  simp [hlock]

/-- Claim C4, counterexample to the claim as stated. With five ledger rows
for IP `4.4.4.4` inside the trailing hour, the next attempt from that IP does
not return `rate_limited` when its target conversation is locked: the lock
check fires first and the call returns `conversation_locked`, logged as
`blocked`. -/
theorem c4_counterexample_locked_target_beats_rate_limit :
    max_hourly_attempts ≤ hourlyCount sRateLocked "4.4.4.4" 1000
    ∧ validate_magic_link_access sRateLocked 1000 9 "4.4.4.4"
        (some "Mozilla/5.0") none
        = (VOut.err "conversation_locked",
           appendLog sRateLocked ⟨9, "4.4.4.4", some "Mozilla/5.0", "blocked", none, 1000⟩)
    ∧ (VOut.err "conversation_locked" : VOut) ≠ VOut.err "rate_limited" := by
  decide

/-- Claim C4 as amended (corrected). Provided the attempt passes the
existence, lock and expiry checks — the target token exists, its conversation
is unlocked and the token is unexpired — an attempt from an IP with at least
`max_hourly_attempts = 5` ledger rows in the window `created_at > now - 1
hour` returns `success = false` with error `rate_limited` and appends one
`rate_limited` ledger entry; nothing is assumed about which tokens the prior
entries targeted, and the count is over all entries for that IP. -/
theorem c4_rate_limit_after_checks (s : DBState) (now : Int) (tok : Nat)
    (ip : String) (ua fp : Option String) (conv : Conversation)
    (hfind : findConv s tok = some conv) (hlock : conv.is_locked = false)
    (hexp : now < conv.token_expires_at)
    (hcnt : max_hourly_attempts ≤ hourlyCount s ip now) :
    validate_magic_link_access s now tok ip ua fp =
      (VOut.err "rate_limited",
       appendLog s ⟨tok, ip, ua, "rate_limited", fp, now⟩) := by
  unfold validate_magic_link_access
  rw [hfind]
  simp [hlock, not_le.mpr hexp, hcnt]

/-- Claim C5, counterexample to the claim as stated. Three attempts against
the pair `(token 7, 1.2.3.4)` at times `0`, `60` and `120` (all within five
minutes): when the third call runs, the ledger holds only the two prior
entries, the rapid-repeat count is `2 < 3`, and the third attempt succeeds —
it returns the conversation view (with `access_count = 3`) and the
conversation stays unlocked, instead of locking with `suspicious_activity`. -/
theorem c5_counterexample_third_attempt_succeeds :
    sAfterTwo.log.map (fun e => (e.talent_token, e.ip_address, e.created_at))
        = [(7, "1.2.3.4", 0), (7, "1.2.3.4", 60)]
    ∧ (validate_magic_link_access sAfterTwo 120 7 "1.2.3.4"
        (some "Mozilla/5.0") none).1
        = VOut.ok ⟨1, 2, "active", "direct_hire", "flexible", "full_time", 3, 0⟩
    ∧ ∀ c ∈ (validate_magic_link_access sAfterTwo 120 7 "1.2.3.4"
        (some "Mozilla/5.0") none).2.conversations,
        c.is_locked = false ∧ c.lock_reason = none := by
  decide

/-- Claim C5 as amended (corrected). Once the ledger already holds at least 3
entries for the pair `(token, ip)` inside the trailing five minutes — i.e.
from the 4th attempt of a rapid run onward — any attempt that passes the
existence, lock, expiry and rate checks locks the conversation (`is_locked =
true`, `lock_reason = "Suspicious access pattern detected"`) and returns
`success = false` with error `suspicious_activity`, logged as `blocked`. -/
theorem c5_rapid_repeat_locks (s : DBState) (now : Int) (tok : Nat)
    (ip : String) (ua fp : Option String) (conv : Conversation)
    (hfind : findConv s tok = some conv) (hlock : conv.is_locked = false)
    (hexp : now < conv.token_expires_at)
    (hhr : hourlyCount s ip now < max_hourly_attempts)
    (hday : dailyCount s ip now < max_daily_attempts)
    (hrapid : 3 ≤ rapidCount s tok ip now) :
    validate_magic_link_access s now tok ip ua fp =
      (VOut.err "suspicious_activity",
       appendLog (lockByToken s tok) ⟨tok, ip, ua, "blocked", fp, now⟩)
    ∧ findConv (validate_magic_link_access s now tok ip ua fp).2 tok =
        some (lockedRow conv) := by
  have heq : validate_magic_link_access s now tok ip ua fp =
      (VOut.err "suspicious_activity",
       appendLog (lockByToken s tok) ⟨tok, ip, ua, "blocked", fp, now⟩) := by
    unfold validate_magic_link_access
    rw [hfind]
    simp [hlock, not_le.mpr hexp, not_le.mpr hhr, not_le.mpr hday, hrapid]
  refine ⟨heq, ?_⟩
  rw [heq]
  exact findConv_lockByToken hfind

/-- Claim C6 (confirmed). For a conversation that exists, is unlocked and has
an unexpired token, an attempt whose user agent matches a bot signature
(case-insensitive match against the fixed list) locks the conversation and
returns `success = false` with error `suspicious_activity` on the very first
attempt, even when the ledger holds no prior entry for that IP or token. -/
theorem c6_bot_user_agent_locks_first_attempt (s : DBState) (now : Int)
    (tok : Nat) (ip : String) (ua fp : Option String) (conv : Conversation)
    (hfind : findConv s tok = some conv) (hlock : conv.is_locked = false)
    (hexp : now < conv.token_expires_at)
    (hfresh : ∀ e ∈ s.log, e.ip_address ≠ ip ∧ e.talent_token ≠ tok)
    (hua : uaSuspicious ua = true) :
    validate_magic_link_access s now tok ip ua fp =
      (VOut.err "suspicious_activity",
       appendLog (lockByToken s tok) ⟨tok, ip, ua, "blocked", fp, now⟩)
    ∧ findConv (validate_magic_link_access s now tok ip ua fp).2 tok =
        some (lockedRow conv) := by
  have hip : ∀ e ∈ s.log, e.ip_address ≠ ip := fun e he => (hfresh e he).1
  have h1 : hourlyCount s ip now = 0 := hourlyCount_zero now hip
  have h2 : dailyCount s ip now = 0 := dailyCount_zero now hip
  have h3 : rapidCount s tok ip now = 0 := rapidCount_zero tok now hip
  have heq : validate_magic_link_access s now tok ip ua fp =
      (VOut.err "suspicious_activity",
       appendLog (lockByToken s tok) ⟨tok, ip, ua, "blocked", fp, now⟩) := by
    unfold validate_magic_link_access
    rw [hfind]
    simp [hlock, not_le.mpr hexp, h1, h2, h3, hua,
          max_hourly_attempts, max_daily_attempts]
  refine ⟨heq, ?_⟩
  rw [heq]
  exact findConv_lockByToken hfind

/-- Claim C7 (confirmed). Every call that reaches the success branch (token
exists, conversation unlocked, token unexpired, both rate counts under
threshold, not suspicious) increments `access_count` by exactly one, sets
`last_accessed_at`, `last_accessed_ip` and `user_agent` to the request
values, appends one `success` ledger entry, and returns a view carrying the
updated count `access_count + 1`. -/
theorem c7_success_updates_bookkeeping (s : DBState) (now : Int) (tok : Nat)
    (ip : String) (ua fp : Option String) (conv : Conversation)
    (hfind : findConv s tok = some conv) (hlock : conv.is_locked = false)
    (hexp : now < conv.token_expires_at)
    (hhr : hourlyCount s ip now < max_hourly_attempts)
    (hday : dailyCount s ip now < max_daily_attempts)
    (hrapid : rapidCount s tok ip now < 3)
    (hua : uaSuspicious ua = false) :
    validate_magic_link_access s now tok ip ua fp =
      (VOut.ok ⟨conv.id, conv.candidate_id, conv.status, conv.opportunity_type,
                conv.urgency, conv.engagement_type, conv.access_count + 1,
                conv.created_at⟩,
       appendLog (touchByToken s tok now ip ua) ⟨tok, ip, ua, "success", fp, now⟩)
    ∧ findConv (validate_magic_link_access s now tok ip ua fp).2 tok =
        some (touchedRow conv now ip ua)
    ∧ (touchedRow conv now ip ua).access_count = conv.access_count + 1 := by
  have heq : validate_magic_link_access s now tok ip ua fp =
      (VOut.ok ⟨conv.id, conv.candidate_id, conv.status, conv.opportunity_type,
                conv.urgency, conv.engagement_type, conv.access_count + 1,
                conv.created_at⟩,
       appendLog (touchByToken s tok now ip ua) ⟨tok, ip, ua, "success", fp, now⟩) := by
    unfold validate_magic_link_access
    rw [hfind]
    simp [hlock, not_le.mpr hexp, not_le.mpr hhr, not_le.mpr hday,
          not_le.mpr hrapid, hua]
  refine ⟨heq, ?_, rfl⟩
  rw [heq]
  exact findConv_touchByToken now ip ua hfind

/-- Claim C8 (code bug). The claim says every call appends exactly one ledger
entry before returning, on every branch. On the invalid-token branch the
single INSERT violates `fk_magic_link_access_log_token`, so the executed call
aborts: it neither returns a decision nor appends any row. Shown at a
concrete store that holds a conversation (token `7`) while the attempt
targets the absent token `42`. -/
theorem c8_unknown_token_returns_no_decision_and_logs_nothing :
    fkLogTokenOk sFresh 42 = false
    ∧ validate_magic_link_access_checked sFresh 50 42 "8.8.8.8"
        (some "Mozilla/5.0") none = none := by
  decide

/-- Claim C9 (confirmed). Whenever the function body returns one of the five
early error codes (`invalid_token`, `conversation_locked`, `token_expired`,
`rate_limited`, `daily_limit_exceeded`), the `chat_conversations` table is
left entirely unchanged: only the suspicious branch and the success branch
mutate conversation state. -/
theorem c9_error_checks_leave_conversation_unchanged (s : DBState) (now : Int)
    (tok : Nat) (ip : String) (ua fp : Option String) (c : String)
    (hres : (validate_magic_link_access s now tok ip ua fp).1 = VOut.err c)
    (hc : c ∈ ["invalid_token", "conversation_locked", "token_expired",
               "rate_limited", "daily_limit_exceeded"]) :
    (validate_magic_link_access s now tok ip ua fp).2.conversations
      = s.conversations := by
  cases hfind : findConv s tok with
  | none =>
    have heq : validate_magic_link_access s now tok ip ua fp =
        (VOut.err "invalid_token", appendLog s ⟨tok, ip, ua, "invalid", fp, now⟩) := by
      unfold validate_magic_link_access
      rw [hfind]
    rw [heq]
    rfl
  | some conv =>
    by_cases hl : conv.is_locked = true
    · have heq : validate_magic_link_access s now tok ip ua fp =
          (VOut.err "conversation_locked", appendLog s ⟨tok, ip, ua, "blocked", fp, now⟩) := by
        unfold validate_magic_link_access
        rw [hfind]
        simp [hl]
      rw [heq]
      rfl
    · by_cases he : conv.token_expires_at ≤ now
      · have heq : validate_magic_link_access s now tok ip ua fp =
            (VOut.err "token_expired", appendLog s ⟨tok, ip, ua, "expired", fp, now⟩) := by
          unfold validate_magic_link_access
          rw [hfind]
          simp [hl, he]
        rw [heq]
        rfl
      · by_cases hhr : max_hourly_attempts ≤ hourlyCount s ip now
        · have heq : validate_magic_link_access s now tok ip ua fp =
              (VOut.err "rate_limited", appendLog s ⟨tok, ip, ua, "rate_limited", fp, now⟩) := by
            unfold validate_magic_link_access
            rw [hfind]
            simp [hl, he, hhr]
          rw [heq]
          rfl
        · by_cases hday : max_daily_attempts ≤ dailyCount s ip now
          · have heq : validate_magic_link_access s now tok ip ua fp =
                (VOut.err "daily_limit_exceeded",
                 appendLog s ⟨tok, ip, ua, "rate_limited", fp, now⟩) := by
              unfold validate_magic_link_access
              rw [hfind]
              simp [hl, he, hhr, hday]
            rw [heq]
            rfl
          · by_cases hsus : 3 ≤ rapidCount s tok ip now ∨ uaSuspicious ua = true
            · have heq : validate_magic_link_access s now tok ip ua fp =
                  (VOut.err "suspicious_activity",
                   appendLog (lockByToken s tok) ⟨tok, ip, ua, "blocked", fp, now⟩) := by
                unfold validate_magic_link_access
                rw [hfind]
                simp [hl, he, hhr, hday, hsus]
              rw [heq] at hres
              obtain rfl : "suspicious_activity" = c := by simpa using hres
              exact absurd hc (by decide)
            · have heq : validate_magic_link_access s now tok ip ua fp =
                  (VOut.ok ⟨conv.id, conv.candidate_id, conv.status, conv.opportunity_type,
                            conv.urgency, conv.engagement_type, conv.access_count + 1,
                            conv.created_at⟩,
                   appendLog (touchByToken s tok now ip ua)
                     ⟨tok, ip, ua, "success", fp, now⟩) := by
                unfold validate_magic_link_access
                rw [hfind]
                simp [hl, he, hhr, hday, hsus]
              rw [heq] at hres
              simp at hres

/-- Claim C10 (confirmed). `unlock_conversation` returns true iff a row with
the given id exists (FOUND of the UPDATE), every matching row ends with
`is_locked = false` and `lock_reason = NULL`, and the call is idempotent: a
second call leaves the state unchanged and returns the same boolean, which is
the one consistent contract the source implements (FOUND counts matched rows,
so a second call on an existing row still returns true). -/
theorem c10_unlock_clears_and_reports_found (s : DBState) (cid : Nat)
    (reason : String) :
    ((unlock_conversation s cid reason).1
        = s.conversations.any (fun c => c.id == cid))
    ∧ (∀ c ∈ (unlock_conversation s cid reason).2.conversations,
        c.id = cid → c.is_locked = false ∧ c.lock_reason = none)
    ∧ unlock_conversation (unlock_conversation s cid reason).2 cid reason
        = unlock_conversation s cid reason := by
  refine ⟨rfl, ?_, ?_⟩
  · intro c hc hid
    unfold unlock_conversation at hc
    simp only [List.mem_map] at hc
    obtain ⟨a, ha, rfl⟩ := hc
    unfold unlockUpd at hid ⊢
    by_cases h : (a.id == cid) = true
    · rw [if_pos h]
      exact ⟨rfl, rfl⟩
    · rw [if_neg h] at hid
      exact absurd hid (by simpa using h)
  · have hupd : ∀ a, unlockUpd cid (unlockUpd cid a) = unlockUpd cid a := by
      intro a
      unfold unlockUpd
      by_cases h : (a.id == cid) = true <;> simp [h]
    have hpred : ((fun c : Conversation => c.id == cid) ∘ unlockUpd cid)
        = (fun c : Conversation => c.id == cid) := by
      funext a
      unfold Function.comp unlockUpd
      by_cases h : (a.id == cid) = true <;> simp [h]
    have h1 : (s.conversations.map (unlockUpd cid)).any (fun c => c.id == cid)
        = s.conversations.any (fun c => c.id == cid) := by
      rw [List.any_map, hpred]
    have h2 : (s.conversations.map (unlockUpd cid)).map (unlockUpd cid)
        = s.conversations.map (unlockUpd cid) := by
      rw [List.map_map]
      exact List.map_congr_left (fun a _ => hupd a)
    unfold unlock_conversation
    rw [h1, h2]

/-! Witnesses: each applies its claim theorem at a concrete input and
discharges every hypothesis there. -/

/-- Witness for C3: a locked conversation whose token is also expired, from
an IP with six recent ledger rows, still answers `conversation_locked`. -/
theorem c3_witness :
    (findConv sLockedBusy 9 = some convLockedExpired
      ∧ convLockedExpired.is_locked = true)
    ∧ validate_magic_link_access sLockedBusy 500 9 "9.9.9.9"
        (some "curl/7.68.0") none
        = (VOut.err "conversation_locked",
           appendLog sLockedBusy ⟨9, "9.9.9.9", some "curl/7.68.0", "blocked", none, 500⟩) :=
  ⟨⟨by decide, by decide⟩,
   c3_locked_returns_conversation_locked sLockedBusy 500 9 "9.9.9.9"
     (some "curl/7.68.0") none convLockedExpired (by decide) (by decide)⟩

/-- Witness for the amended C4: five prior rows from one IP targeting a mix
of tokens `7` and `8` rate-limit the next attempt against token `7`. -/
theorem c4_witness :
    (findConv sRateMixed 7 = some convT7 ∧ convT7.is_locked = false
      ∧ (600 : Int) < convT7.token_expires_at
      ∧ max_hourly_attempts ≤ hourlyCount sRateMixed "4.4.4.4" 600)
    ∧ validate_magic_link_access sRateMixed 600 7 "4.4.4.4"
        (some "Mozilla/5.0") none
        = (VOut.err "rate_limited",
           appendLog sRateMixed ⟨7, "4.4.4.4", some "Mozilla/5.0", "rate_limited", none, 600⟩) :=
  ⟨⟨by decide, by decide, by decide, by decide⟩,
   c4_rate_limit_after_checks sRateMixed 600 7 "4.4.4.4" (some "Mozilla/5.0")
     none convT7 (by decide) (by decide) (by decide) (by decide)⟩

/-- Witness for the amended C5: with three rows for the pair inside five
minutes, the fourth attempt locks the conversation and answers
`suspicious_activity`. -/
theorem c5_witness :
    (findConv sRapidThree 7 = some convT7 ∧ convT7.is_locked = false
      ∧ (180 : Int) < convT7.token_expires_at
      ∧ hourlyCount sRapidThree "1.2.3.4" 180 < max_hourly_attempts
      ∧ dailyCount sRapidThree "1.2.3.4" 180 < max_daily_attempts
      ∧ 3 ≤ rapidCount sRapidThree 7 "1.2.3.4" 180)
    ∧ (validate_magic_link_access sRapidThree 180 7 "1.2.3.4"
        (some "Mozilla/5.0") none
        = (VOut.err "suspicious_activity",
           appendLog (lockByToken sRapidThree 7)
             ⟨7, "1.2.3.4", some "Mozilla/5.0", "blocked", none, 180⟩)
      ∧ findConv (validate_magic_link_access sRapidThree 180 7 "1.2.3.4"
          (some "Mozilla/5.0") none).2 7 = some (lockedRow convT7)) :=
  ⟨⟨by decide, by decide, by decide, by decide, by decide, by decide⟩,
   c5_rapid_repeat_locks sRapidThree 180 7 "1.2.3.4" (some "Mozilla/5.0")
     none convT7 (by decide) (by decide) (by decide) (by decide) (by decide)
     (by decide)⟩

/-- Witness for C6: a `curl` user agent on a completely fresh ledger locks
the conversation on the first attempt. -/
theorem c6_witness :
    (findConv sFresh 7 = some convT7 ∧ convT7.is_locked = false
      ∧ (100 : Int) < convT7.token_expires_at
      ∧ (∀ e ∈ sFresh.log, e.ip_address ≠ "5.6.7.8" ∧ e.talent_token ≠ 7)
      ∧ uaSuspicious (some "curl/7.68.0") = true)
    ∧ (validate_magic_link_access sFresh 100 7 "5.6.7.8"
        (some "curl/7.68.0") none
        = (VOut.err "suspicious_activity",
           appendLog (lockByToken sFresh 7)
             ⟨7, "5.6.7.8", some "curl/7.68.0", "blocked", none, 100⟩)
      ∧ findConv (validate_magic_link_access sFresh 100 7 "5.6.7.8"
          (some "curl/7.68.0") none).2 7 = some (lockedRow convT7)) :=
  ⟨⟨by decide, by decide, by decide, by decide, by decide⟩,
   c6_bot_user_agent_locks_first_attempt sFresh 100 7 "5.6.7.8"
     (some "curl/7.68.0") none convT7 (by decide) (by decide) (by decide)
     (by decide) (by decide)⟩

/-- Witness for C7: a benign browser attempt on a fresh ledger succeeds and
bumps `access_count` from 0 to 1. -/
theorem c7_witness :
    (findConv sFresh 7 = some convT7 ∧ convT7.is_locked = false
      ∧ (100 : Int) < convT7.token_expires_at
      ∧ hourlyCount sFresh "1.2.3.4" 100 < max_hourly_attempts
      ∧ dailyCount sFresh "1.2.3.4" 100 < max_daily_attempts
      ∧ rapidCount sFresh 7 "1.2.3.4" 100 < 3
      ∧ uaSuspicious (some "Mozilla/5.0") = false)
    ∧ (validate_magic_link_access sFresh 100 7 "1.2.3.4"
        (some "Mozilla/5.0") none
        = (VOut.ok ⟨convT7.id, convT7.candidate_id, convT7.status,
                    convT7.opportunity_type, convT7.urgency,
                    convT7.engagement_type, convT7.access_count + 1,
                    convT7.created_at⟩,
           appendLog (touchByToken sFresh 7 100 "1.2.3.4" (some "Mozilla/5.0"))
             ⟨7, "1.2.3.4", some "Mozilla/5.0", "success", none, 100⟩)
      ∧ findConv (validate_magic_link_access sFresh 100 7 "1.2.3.4"
          (some "Mozilla/5.0") none).2 7
          = some (touchedRow convT7 100 "1.2.3.4" (some "Mozilla/5.0"))
      ∧ (touchedRow convT7 100 "1.2.3.4" (some "Mozilla/5.0")).access_count
          = convT7.access_count + 1) :=
  ⟨⟨by decide, by decide, by decide, by decide, by decide, by decide, by decide⟩,
   c7_success_updates_bookkeeping sFresh 100 7 "1.2.3.4" (some "Mozilla/5.0")
     none convT7 (by decide) (by decide) (by decide) (by decide) (by decide)
     (by decide) (by decide)⟩

/-- Witness for C9: an expired-token failure leaves the conversation table
untouched. -/
theorem c9_witness :
    ((validate_magic_link_access sExpired 50 5 "2.2.2.2" none none).1
        = VOut.err "token_expired"
      ∧ "token_expired" ∈ ["invalid_token", "conversation_locked",
          "token_expired", "rate_limited", "daily_limit_exceeded"])
    ∧ (validate_magic_link_access sExpired 50 5 "2.2.2.2" none none).2.conversations
        = sExpired.conversations :=
  ⟨⟨by decide, by decide⟩,
   c9_error_checks_leave_conversation_unchanged sExpired 50 5 "2.2.2.2"
     none none "token_expired" (by decide) (by decide)⟩

/-- Witness for C10: unlocking the locked conversation with id `3` reports
true, clears the lock, and a second unlock is a no-op with the same answer. -/
theorem c10_witness :
    ((unlock_conversation sRateLocked 3 "manual review").1
        = sRateLocked.conversations.any (fun c => c.id == 3))
    ∧ (∀ c ∈ (unlock_conversation sRateLocked 3 "manual review").2.conversations,
        c.id = 3 → c.is_locked = false ∧ c.lock_reason = none)
    ∧ unlock_conversation (unlock_conversation sRateLocked 3 "manual review").2
        3 "manual review"
        = unlock_conversation sRateLocked 3 "manual review" :=
  c10_unlock_clears_and_reports_found sRateLocked 3 "manual review"

end CandidatesPortal
